import Mathlib

/-!
Shallow embedding of the entity-extraction / aggregation / trend / join
pipeline of the `db-rilis` dashboard (src/data_loader.py, src/app.py).

Modelling conventions:
* A Python string is a sequence of code points, modelled as `List Char`
  (`Str`).  Python's `s.split(sep)` for a one-character separator is
  `splitChar`, `s.strip()` is `strip`, and `'##' in s` is
  `containsSub sharps s`.  These are written as structural recursions so
  that every concrete instance evaluates inside the kernel.
* A spreadsheet cell is `Option Str`: `none` is a missing value (pandas
  `NaN`/`None`, for which `pd.isna` is true), `some s` is the cell's
  string content.  `pd.isna ""` is *false* in pandas, so the empty string
  is `some []`.
* A dataframe row is an association list from column name to cell; a
  dataframe carries its column list, mirroring the `column in df.columns`
  checks in the source.
* Dates are `Int`, counting days from an epoch that falls on a Monday, so
  that Python's `date.weekday()` (Monday = 0) is `d % 7` (`Int.emod`,
  which lands in `[0, 7)` for the positive modulus `7`).
* `list(set(xs))` is modelled as `xs.dedup`: CPython's iteration order
  over a set is unspecified, and no property proved below depends on the
  order of that list, only on its elements.
* `pandas.groupby` with the default `sort=True` orders group keys in
  ascending key order; `Series.sort_values(ascending=False)` computes an
  ascending argsort of the values and reverses the resulting indexer, so
  tied keys come out in reverse of their ascending-pass order.  Both are
  modelled explicitly below (`groupbySum`, `sortValuesDesc`).
-/

namespace DbRilis

/-- A Python string: its sequence of code points. -/
abbrev Str := List Char

/-- Python `s.split(sep)` for a one-character separator: every occurrence
of `sep` is a cut point, so the result has one piece per separator plus
one; `''.split(sep)` is `['']`. -/
def splitChar (sep : Char) : Str → List Str
  | [] => [[]]
  | c :: cs =>
    match splitChar sep cs with
    | [] => [[c]]
    | p :: ps => if c = sep then [] :: p :: ps else (c :: p) :: ps

/-- Python `s.strip()`: drop leading and trailing whitespace. -/
def strip (cs : Str) : Str :=
  ((cs.dropWhile Char.isWhitespace).reverse.dropWhile Char.isWhitespace).reverse

/-- Python `pat in s` substring test. -/
def containsSub (pat : Str) : Str → Bool
  | [] => pat.isEmpty
  | c :: cs => pat.isPrefixOf (c :: cs) || containsSub pat cs

/-- The two-character sentinel `'##'`. -/
def sharps : Str := ['#', '#']

/-- Model of `data_loader.process_entities`: on a missing cell (`pd.isna`) return
`[]`; otherwise split the string on `','`, strip each piece, and keep
the pieces that do not contain `'##'`. -/
def processEntities : Option Str → List Str
  | none => []
  | some s => (((splitChar ',' s).map strip)).filter (fun e => !containsSub sharps e)

/-- One dataframe row: column name ↦ cell value. -/
abbrev Row := List (Str × Option Str)

/-- A rectangular dataset: its column names and its rows. -/
structure DataFrame where
  cols : List Str
  rows : List Row

/-- Cell lookup `row[c]`; a key absent from the row reads as missing. -/
def cellOf (r : Row) (c : Str) : Option Str :=
  (r.lookup c).join

/-- The column `df[c]` as a list of cells. -/
def getColumn (df : DataFrame) (c : Str) : List (Option Str) :=
  df.rows.map (fun r => cellOf r c)

/-- Model of `data_loader.process_dataset`, flattening step: if the column is
absent return the empty list (the source returns an empty `pd.Series`);
otherwise run `process_entities` over each cell of the column and
concatenate the results into `all_entities`. -/
def processDataset (df : DataFrame) (c : Str) : List Str :=
  if c ∈ df.cols then ((getColumn df c).map processEntities).flatten else []

/-- The count mapping behind `pd.Series(all_entities).value_counts()`:
how often entity `e` occurs in the flattened list. -/
def entityCount (df : DataFrame) (c : Str) (e : Str) : Nat :=
  (processDataset df c).count e

/-- Model of `data_loader.get_unique_locations`: absent column yields `[]`;
otherwise flatten `process_entities` over the column (the `pd.isna`
skip in the loop duplicates the check inside `process_entities`) and
deduplicate, modelling `list(set(locations))`. -/
def uniqueLocations (df : DataFrame) (c : Str) : List Str :=
  if c ∈ df.cols then (((getColumn df c).map processEntities).flatten).dedup else []

/-! ### Temporal trend builder (`app.create_sources_trend_analysis`) -/

/-- One row as seen by the trend builder: its date cell after
`pd.to_datetime(..., errors='coerce')` (`none` is `NaT`, removed by the
`dropna` on the date column) and its raw entity cell. -/
structure TrendRow where
  date : Option Int
  cell : Option Str
  deriving DecidableEq

/-- Model of `get_week_start`: `date - Timedelta(days=date.weekday())`; with the
Monday epoch, `weekday = d % 7`. -/
def weekStart (d : Int) : Int := d - d % 7

/-- The per-row entity list of the trend builder:
`row[entity_col].split(';')` when the cell is not `NaN` (else `[]`),
then each piece is stripped and kept only when non-empty
(`if entity:`).  Note: unlike `process_entities`, no `'##'` filter. -/
def semiEntities : Option Str → List Str
  | none => []
  | some s => ((splitChar ';' s).map strip).filter (fun e => !e.isEmpty)

/-- The rows of `entities_df` with the week column already applied:
one `(Narasumber, Minggu)` pair per extracted entity of each row whose
date survived `dropna`. -/
def trendPairs (rows : List TrendRow) : List (Str × Int) :=
  rows.flatMap (fun r =>
    match r.date with
    | none => []
    | some d => (semiEntities r.cell).map (fun e => (e, weekStart d)))

/-- Model of the `weekly_counts` entry for `(e, w)`: the size of the
`groupby(['Narasumber','Minggu'])` group, i.e. the multiplicity of the
pair among `trendPairs`. -/
def pointCount (rows : List TrendRow) (e : Str) (w : Int) : Nat :=
  (trendPairs rows).count (e, w)

/-- The buckets for which `weekly_counts` has a row for entity `e`: the
distinct weeks in which `e` occurs.  (`groupby` lists them in sorted
order; only their set and number matter below.) -/
def occupiedWeeks (rows : List TrendRow) (e : Str) : List Int :=
  ((trendPairs rows).filterMap (fun p => if p.1 = e then some p.2 else none)).dedup

/-- Python's lexicographic (per code point) strict comparison on strings. -/
def strLt : Str → Str → Bool
  | [], [] => false
  | [], _ :: _ => true
  | _ :: _, [] => false
  | a :: as, b :: bs => if a = b then strLt as bs else decide (a < b)

/-- Total preorder `a ≤ b` on strings derived from `strLt`. -/
def strLe (a b : Str) : Bool := !strLt b a

/-- The group keys of `groupby('Narasumber')` in the order pandas emits
them: distinct, sorted ascending (the default `sort=True`). -/
def entityKeysSorted (rows : List TrendRow) : List Str :=
  List.insertionSort (fun a b => strLe a b = true) (((trendPairs rows).map Prod.fst).dedup)

/-- Model of `weekly_counts.groupby('Narasumber')['Frekuensi'].sum()`: per sorted
entity key, the total number of occurrences of that entity. -/
def groupbySum (rows : List TrendRow) : List (Str × Nat) :=
  (entityKeysSorted rows).map (fun e => (e, (trendPairs rows).countP (fun p => p.1 = e)))

/-- Model of `Series.sort_values(ascending=False)`: pandas computes an ascending
argsort of the values and reverses the indexer, so the output is the
reverse of a stable ascending sort (exact for small inputs, where
numpy's quicksort is insertion sort and hence stable). -/
def sortValuesDesc (l : List (Str × Nat)) : List (Str × Nat) :=
  (List.insertionSort (fun p q => p.2 ≤ q.2) l).reverse

/-- Model of `narasumber_counts`: total frequency per entity, sorted descending. -/
def trendRanking (rows : List TrendRow) : List (Str × Nat) :=
  sortValuesDesc (groupbySum rows)

/-- Model of `top_sources.index`: the entities kept for plotting,
`narasumber_counts.head(10)`. -/
def topSources (rows : List TrendRow) : List Str :=
  ((trendRanking rows).take 10).map Prod.fst

/-- The dates that survive `dropna(subset=[date_col])`. -/
def validDates (rows : List TrendRow) : List Int :=
  rows.filterMap (·.date)

/-- The number of week buckets in the inclusive span from the minimum to
the maximum valid date (the spec's dense bucket range; the source never
computes this). -/
def numBucketsSpanned (rows : List TrendRow) : Nat :=
  match (validDates rows).min?, (validDates rows).max? with
  | some a, some b => ((weekStart b - weekStart a) / 7).toNat + 1
  | _, _ => 0

/-! ### Cross-dataset join (`app.count_media_per_sp`) -/

/-- The pairing test of `df_berita[df_berita[berita_sp_ref_col] == sp_title]`:
pandas `==` of a cell against a scalar is `False` whenever either side is
missing (`NaN` compares unequal to everything), and otherwise raw string
equality — no strip, no normalization. -/
def joinMatches (ref title : Option Str) : Bool :=
  match ref, title with
  | some r, some t => r == t
  | _, _ => false

/-- Model of `related_berita`: the news rows whose reference cell matches the
given press-release title. -/
def relatedRows (news : List Row) (refCol : Str) (t : Option Str) : List Row :=
  news.filter (fun r => joinMatches (cellOf r refCol) t)

/-! ### Claim theorems: the entity extractor (C4, C5, C6) -/

/-- C4: for every non-empty cell value, extraction splits on the comma
separator, strips each piece, and returns exactly the pieces not
containing `'##'`, in split order (a sublist of the split, with the
multiplicity of every `'##'`-free piece preserved and every
`'##'`-containing piece absent — hence no case normalization and no
deduplication); in particular `"A, B##x, C"` yields `["A", "C"]`. -/
theorem c4_theorem :
    (∀ s : Str, s ≠ [] →
      (processEntities (some s)).Sublist ((splitChar ',' s).map strip) ∧
      ∀ e : Str, (processEntities (some s)).count e =
        if containsSub sharps e then 0 else ((splitChar ',' s).map strip).count e) ∧
    processEntities (some "A, B##x, C".data) = ["A".data, "C".data] := by
  refine ⟨fun s _ => ⟨List.filter_sublist _, fun e => ?_⟩, by decide⟩
  by_cases h : containsSub sharps e
  · simp only [h, if_true]
    refine List.count_eq_zero.mpr fun hmem => ?_
    have := (List.mem_filter.mp hmem).2
    simp [h] at this
  · simp only [h, if_false]
    exact List.count_filter (by simp [h])

/-- Witness for C4 at the concrete cell `"A, B##x, C"`. -/
theorem c4_witness :
    (processEntities (some "A, B##x, C".data)).Sublist
      ((splitChar ',' "A, B##x, C".data).map strip) ∧
    (processEntities (some "A, B##x, C".data)).count "A".data =
      if containsSub sharps "A".data then 0
      else ((splitChar ',' "A, B##x, C".data).map strip).count "A".data :=
  ⟨(c4_theorem.1 "A, B##x, C".data (by decide)).1,
   (c4_theorem.1 "A, B##x, C".data (by decide)).2 "A".data⟩

/-- C5 counterexample: the claim says the empty string extracts to the
empty sequence, but `pd.isna ""` is false, so the code splits `""` into
the single empty piece, strips it, does not filter it (it contains no
`'##'`), and returns `[""]`, not `[]`. -/
theorem c5_counterexample :
    processEntities (some ([] : Str)) = [[]] ∧ ([[]] : List Str) ≠ [] := by
  decide

/-- C5 amended: only a missing cell (`pd.isna`, i.e. `NaN`/`None`)
extracts to the empty sequence; the empty string is not missing and
extracts to the one-element list holding the empty token. -/
theorem c5_theorem :
    processEntities none = [] ∧ processEntities (some ([] : Str)) = [[]] := by
  exact ⟨rfl, by decide⟩

/-- C6 counterexample: the cell `"A,,B"` extracts to `["A", "", "B"]`,
so an extracted entity can be empty after trimming, violating the
claimed invariant. -/
theorem c6_counterexample :
    processEntities (some "A,,B".data) = ["A".data, [], "B".data] ∧
    ([] : Str) ∈ processEntities (some "A,,B".data) := by
  decide

/-- C6 amended: every extracted entity is free of the `'##'` sentinel,
but entities may be empty after trimming (empty pieces are not
filtered). -/
theorem c6_theorem (c : Option Str) (e : Str) (he : e ∈ processEntities c) :
    containsSub sharps e = false := by
  cases c with
  | none => simp [processEntities] at he
  | some s =>
    have := (List.mem_filter.mp he).2
    simpa using this

/-- Witness for C6: the entity `"A"` extracted from `"A,B"` contains no
`'##'`. -/
theorem c6_witness : containsSub sharps "A".data = false :=
  c6_theorem (some "A,B".data) "A".data (by decide)

/-! ### Claim theorems: aggregation and locations (C7, C8, C10) -/

/-- Concrete two-row dataset for the C7 witness. -/
def dfPerm₁ : DataFrame :=
  ⟨["k".data], [[("k".data, some "A".data)], [("k".data, some "B,A".data)]]⟩

/-- Row-order permutation of `dfPerm₁`. -/
def dfPerm₂ : DataFrame :=
  ⟨["k".data], [[("k".data, some "B,A".data)], [("k".data, some "A".data)]]⟩

/-- C7: aggregation is row-order independent — two datasets whose rows
are permutations of each other (over the same columns) get the same
entity-to-count mapping. -/
theorem c7_theorem (df₁ df₂ : DataFrame) (c : Str)
    (hcols : df₁.cols = df₂.cols) (hperm : df₁.rows.Perm df₂.rows) :
    ∀ e : Str, entityCount df₁ c e = entityCount df₂ c e := by
  intro e
  unfold entityCount processDataset getColumn
  rw [hcols]
  by_cases hc : c ∈ df₂.cols
  · simp only [hc, if_true]
    simp only [List.count]
    exact (((hperm.map (fun r => cellOf r c)).map processEntities).flatten).countP_eq _
  · simp [hc]

/-- Witness for C7 on a concrete pair of row-swapped datasets. -/
theorem c7_witness :
    entityCount dfPerm₁ "k".data "A".data = entityCount dfPerm₂ "k".data "A".data :=
  c7_theorem dfPerm₁ dfPerm₂ "k".data rfl (by decide) "A".data

/-- C8: a column name absent from the dataset makes aggregation return
the all-zero (empty) mapping and location extraction return the empty
list; neither raises. -/
theorem c8_theorem (df : DataFrame) (c : Str) (hc : c ∉ df.cols) :
    (∀ e : Str, entityCount df c e = 0) ∧ uniqueLocations df c = [] := by
  constructor
  · intro e
    simp [entityCount, processDataset, hc]
  · simp [uniqueLocations, hc]

/-- Witness for C8: the column `"missing"` is not among the columns of
`dfPerm₁`. -/
theorem c8_witness :
    entityCount dfPerm₁ "missing".data "A".data = 0 ∧
    uniqueLocations dfPerm₁ "missing".data = [] :=
  ⟨(c8_theorem dfPerm₁ "missing".data (by decide)).1 "A".data,
   (c8_theorem dfPerm₁ "missing".data (by decide)).2⟩

/-- C10: the list returned by `get_unique_locations` never contains a
duplicate element, for any dataset and any location column. -/
theorem c10_theorem (df : DataFrame) (c : Str) : (uniqueLocations df c).Nodup := by
  unfold uniqueLocations
  split
  · exact List.nodup_dedup _
  · exact List.nodup_nil

/-! ### Claim theorems: trend builder (C1, C3, C9) and join (C2) -/

/-- Concrete trend input for C1: one entity, occurrences in weeks 0 and
2 of a three-week span (dates 0 and 14, both Mondays). -/
def rowsC1 : List TrendRow := [⟨some 0, some "A".data⟩, ⟨some 14, some "A".data⟩]

/-- Concrete trend input for C3: one dated row whose cell holds a
`'##'`-marked piece after the semicolon. -/
def rowsC3 : List TrendRow := [⟨some 0, some "A;B##x".data⟩]

/-- Concrete trend input for C9: three entities, first encountered in
the order `C`, `A`, `B`, all with total count 1. -/
def rowsC9 : List TrendRow := [⟨some 0, some "C;A;B".data⟩]

/-- C1 counterexample: entity `"A"` is kept in the top-N, the valid
dates span three week buckets (weeks starting 0, 7, 14), but the trend
builder emits only two points for `"A"` — the middle, zero-occurrence
bucket gets no TrendPoint, so the emitted matrix is sparse, not dense. -/
theorem c1_counterexample :
    "A".data ∈ topSources rowsC1 ∧
    numBucketsSpanned rowsC1 = 3 ∧
    (occupiedWeeks rowsC1 "A".data).length = 2 ∧
    (occupiedWeeks rowsC1 "A".data).length ≠ numBucketsSpanned rowsC1 := by
  decide

/-- C1 amended: for each entity kept in the top-N, the trend builder
emits exactly one TrendPoint per bucket in which the entity has at
least one occurrence — the occupied buckets are listed without
duplicates, and a bucket carries a point iff the entity's count there
is positive (zero-count buckets are omitted; the matrix is sparse). -/
theorem c1_theorem (rows : List TrendRow) (e : Str) (_hkept : e ∈ topSources rows) :
    (occupiedWeeks rows e).Nodup ∧
    ∀ w : Int, w ∈ occupiedWeeks rows e ↔ 0 < pointCount rows e w := by
  refine ⟨List.nodup_dedup _, fun w => ?_⟩
  unfold occupiedWeeks pointCount
  rw [List.mem_dedup, List.mem_filterMap, List.count_pos_iff]
  constructor
  · rintro ⟨⟨pe, pw⟩, hp, hpw⟩
    by_cases h : pe = e
    · subst h
      rw [if_pos rfl] at hpw
      cases hpw
      exact hp
    · rw [if_neg h] at hpw
      cases hpw
  · intro hmem
    exact ⟨(e, w), hmem, by simp⟩

/-- Witness for C1 on `rowsC1`, whose only entity `"A"` is kept. -/
theorem c1_witness :
    (occupiedWeeks rowsC1 "A".data).Nodup ∧
    ∀ w : Int, w ∈ occupiedWeeks rowsC1 "A".data ↔ 0 < pointCount rowsC1 "A".data w :=
  c1_theorem rowsC1 "A".data (by decide)

/-- C3 counterexample: the trend builder does not run the Entity
Extractor — the `'##'`-marked piece `"B##x"` of the cell `"A;B##x"` is
counted (its per-bucket count is 1, not 0), and the trend builder's
per-row entity list differs from `process_entities` on that cell. -/
theorem c3_counterexample :
    containsSub sharps "B##x".data = true ∧
    pointCount rowsC3 "B##x".data 0 = 1 ∧
    semiEntities (some "A;B##x".data) ≠ processEntities (some "A;B##x".data) := by
  decide

/-- C3 amended: the trend builder's per-row entity list splits the cell
on semicolons, strips each piece and keeps every non-empty piece —
including pieces containing `'##'` — and each kept piece contributes a
positive count to its (entity, bucket) cell. -/
theorem c3_theorem (rows : List TrendRow) (r : TrendRow) (d : Int) (s p : Str)
    (hr : r ∈ rows) (hd : r.date = some d) (hc : r.cell = some s)
    (hp : p ∈ (splitChar ';' s).map strip) (hne : p ≠ []) :
    0 < pointCount rows p (weekStart d) := by
  unfold pointCount
  rw [List.count_pos_iff]
  unfold trendPairs
  rw [List.mem_flatMap]
  refine ⟨r, hr, ?_⟩
  rw [hd]
  rw [List.mem_map]
  refine ⟨p, ?_, rfl⟩
  rw [hc]
  unfold semiEntities
  rw [List.mem_filter]
  refine ⟨hp, ?_⟩
  simpa using hne

/-- Witness for C3: the `'##'`-marked piece `"B##x"` of `rowsC3` has a
positive count in its bucket. -/
theorem c3_witness : 0 < pointCount rowsC3 "B##x".data (weekStart 0) :=
  c3_theorem rowsC3 ⟨some 0, some "A;B##x".data⟩ 0 "A;B##x".data "B##x".data
    (by decide) rfl rfl (by decide) (by decide)

/-- C9 counterexample: with entities first encountered in the order
`C`, `A`, `B`, all tied at count 1, the claimed first-encountered tie
order would rank them `C`, `A`, `B`; the code's ranking (groupby sorts
keys ascending, then the descending sort reverses) is `C`, `B`, `A`. -/
theorem c9_counterexample :
    ((trendPairs rowsC9).map Prod.fst).dedup = ["C".data, "A".data, "B".data] ∧
    trendRanking rowsC9 = [("C".data, 1), ("B".data, 1), ("A".data, 1)] ∧
    trendRanking rowsC9 ≠ [("C".data, 1), ("A".data, 1), ("B".data, 1)] := by
  decide

/-- Totality of the value-comparison used by `sortValuesDesc`. -/
instance : IsTotal (Str × Nat) (fun p q => p.2 ≤ q.2) :=
  ⟨fun a b => Nat.le_total a.2 b.2⟩

/-- Transitivity of the value-comparison used by `sortValuesDesc`. -/
instance : IsTrans (Str × Nat) (fun p q => p.2 ≤ q.2) :=
  ⟨fun _ _ _ h h₂ => Nat.le_trans h h₂⟩

/-- C9 amended: the ranking consumed for the top-N is sorted by count
descending, but entities with equal counts are not kept in
first-encountered order (ties come out in reverse of the ascending
pass over the key-sorted groups). -/
theorem c9_theorem (rows : List TrendRow) :
    (trendRanking rows).Pairwise (fun p q => q.2 ≤ p.2) := by
  unfold trendRanking sortValuesDesc
  rw [List.pairwise_reverse]
  exact List.sorted_insertionSort _ _

/-- C2 counterexample: a news reference `" R1"` and a press-release
title `"R1"` are equal after stripping, so the claim says they pair,
but the code's raw equality does not pair them. -/
theorem c2_counterexample :
    relatedRows [[("ref".data, some " R1".data)]] "ref".data (some "R1".data) = [] ∧
    strip " R1".data = strip "R1".data := by
  decide

/-- C2 amended: the join pairs a news row with a press-release title
exactly when both values are present and the raw strings are identical
— no stripping, no casting, no fuzzy or case-insensitive matching. -/
theorem c2_theorem (news : List Row) (refCol : Str) (t : Option Str) (r : Row) :
    r ∈ relatedRows news refCol t ↔
      r ∈ news ∧ ∃ s : Str, cellOf r refCol = some s ∧ t = some s := by
  unfold relatedRows
  rw [List.mem_filter]
  refine and_congr_right fun _ => ?_
  unfold joinMatches
  cases h1 : cellOf r refCol with
  | none => simp
  | some a =>
    cases t with
    | none => simp
    | some b =>
      simp only [Option.some.injEq, beq_iff_eq]
      constructor
      · rintro rfl
        exact ⟨a, rfl, rfl⟩
      · rintro ⟨s, rfl, rfl⟩
        rfl

end DbRilis
